import Mathlib

set_option maxHeartbeats 1000000

/-!
Verification of the embedapi Cloudflare Worker request handlers.

The repository holds two handler variants: a Vectorize-backed worker
(create, get, search, delete) and a KV-backed worker (create, get).
Both are shallowly embedded here: request bodies, provider responses and
stored records are JSON-like values; the embedding provider and the
backing store are passed in as explicit behaviours, and each handler
additionally reports which outbound calls it made, so that theorems can
speak about both the response and the side effects.
-/

namespace EmbedApi

/-- JSON-like values exchanged by the worker: request bodies, provider
response bodies, stored metadata and response bodies. Numbers are kept
as integers because the handlers never compute with them, only pass
them through. -/
inductive JVal where
  | null : JVal
  | bool : Bool → JVal
  | num : Int → JVal
  | str : String → JVal
  | arr : List JVal → JVal
  | obj : List (String × JVal) → JVal

/-- Property lookup in a JS object literal: the last binding of a key
wins, matching the semantics of object spread and duplicate keys. -/
def jsLookup : List (String × JVal) → String → Option JVal
  | [], _ => none
  | kv :: rest, key =>
      match jsLookup rest key with
      | some w => some w
      | none => if kv.1 = key then some kv.2 else none

/-- Whether a string is empty, written over its length so that it
evaluates by reduction; the emptiness test behind the falsiness of a
string field. -/
def strEmpty (s : String) : Bool :=
  s.length == 0

/-- JS truthiness of a JSON value (no NaN case: JSON has no NaN). -/
def truthy : JVal → Bool
  | .null => false
  | .bool b => b
  | .num x => x != 0
  | .str s => !(strEmpty s)
  | .arr _ => true
  | .obj _ => true

/-- Truthiness of a possibly-undefined value: undefined is falsy. -/
def truthyO : Option JVal → Bool
  | none => false
  | some v => truthy v

/-- Whether a value is JSON null: property access on it throws. -/
def isNull : JVal → Bool
  | .null => true
  | _ => false

/-- JS property access `v.k` on a non-null value: undefined (`none`)
unless `v` is an object holding the key. -/
def jsGet : JVal → String → Option JVal
  | .obj fs, k => jsLookup fs k
  | _, _ => none

/-- JS indexing `v[i]` on a non-null value: array element, character of
a string, or numeric-string key of an object; undefined otherwise. -/
def jsIndex : JVal → Nat → Option JVal
  | .arr xs, i => xs.get? i
  | .str s, i =>
      if i < s.length then some (.str (String.mk [s.data.getD i ' '])) else none
  | .obj fs, i => jsLookup fs (toString i)
  | _, _ => none

/-- Index-keyed fields produced by spreading an array into an object. -/
def enumFields (vs : List JVal) : List (String × JVal) :=
  vs.enum.map (fun p => (toString p.1, p.2))

/-- The fields contributed by `...v` inside an object literal: an
object contributes its fields, an array or string its index-keyed
elements, and a primitive nothing. -/
def spreadFields : JVal → List (String × JVal)
  | .obj fs => fs
  | .arr xs => enumFields xs
  | .str s => enumFields (s.data.map (fun c => JVal.str (String.mk [c])))
  | _ => []

/-- Build the object observed after serialisation: fields whose value
is undefined (`none`) are dropped, as JSON.stringify drops them. -/
def mkObj (fs : List (String × Option JVal)) : JVal :=
  .obj (fs.filterMap (fun p => p.2.map (fun v => (p.1, v))))

mutual

/-- Plain serialisation of a value, used only to build the text of the
diagnostic message in the search handler. -/
def jsonStringify : JVal → String
  | .null => "null"
  | .bool true => "true"
  | .bool false => "false"
  | .num x => toString x
  | .str s => "\"" ++ s ++ "\""
  | .arr xs => "[" ++ stringifyList xs ++ "]"
  | .obj fs => "\x7b" ++ stringifyFields fs ++ "\x7d"

/-- Comma-separated serialisation of array elements. -/
def stringifyList : List JVal → String
  | [] => ""
  | [v] => jsonStringify v
  | v :: rest => jsonStringify v ++ "," ++ stringifyList rest

/-- Comma-separated serialisation of object fields. -/
def stringifyFields : List (String × JVal) → String
  | [] => ""
  | [kv] => "\"" ++ kv.1 ++ "\":" ++ jsonStringify kv.2
  | kv :: rest => "\"" ++ kv.1 ++ "\":" ++ jsonStringify kv.2 ++ "," ++ stringifyFields rest

end

/-- The length read by the diagnostic `length or zero` expression in
the search handler: arrays and strings have a length, anything else
contributes zero. -/
def jsLenOr0 : JVal → Nat
  | .arr xs => xs.length
  | .str s => s.length
  | _ => 0

/-- An HTTP response as the handlers build it: a status code and the
JSON body handed to the serialiser. -/
structure Resp where
  status : Nat
  body : JVal

/-- What leaves a handler: either a response, or an exception that the
handler did not catch. -/
inductive HResult where
  | resp : Resp → HResult
  | thrown : String → HResult

/-- Whether `p` is a prefix of `s`, written over the character lists
so that it evaluates by reduction; agrees with the startsWith check of
the source. -/
def strStartsWith (s p : String) : Bool :=
  p.data.isPrefixOf s.data

/-- Drop the first `n` characters of `s`, the slice the KV worker uses
to strip the Bearer scheme. -/
def strDrop (s : String) (n : Nat) : String :=
  String.mk (s.data.drop n)

/-- The shared error-response helper of both workers. -/
def errorResponse (msg : String) (status : Nat) : Resp :=
  ⟨status, .obj [("error", .str msg)]⟩

/-- The authorization guard of both workers: reject when the header is
absent or does not start with the Bearer scheme. -/
def badAuth : Option String → Bool
  | none => true
  | some a => !(strStartsWith a "Bearer ")

/-- The outbound request both workers send to the embedding provider. -/
structure ProviderReq where
  auth : String
  input : String
  model : String
deriving DecidableEq

/-- The provider response as the handlers observe it: the ok flag and
status of the HTTP response, its parsed JSON body, and its raw text. -/
structure ProviderResp where
  ok : Bool
  status : Nat
  body : JVal
  bodyText : String

/-- A record as handed to the Vectorize upsert call and as returned by
its getByIds call. -/
structure VecRecord where
  id : String
  values : Option JVal
  metadata : List (String × JVal)

/-- Outcome of the Vectorize create handler: the result plus the
outbound calls it made. -/
structure EmbedOutcome where
  result : HResult
  providerReq : Option ProviderReq
  upsertCall : Option VecRecord

/-- The Vectorize create handler. Inputs are the Authorization header,
the parsed request body (`none` when parsing rejected), the provider
behaviour, whether the store upsert succeeds, and the generated id and
timestamp. Mirrors handleEmbed of the Vectorize worker: auth guard,
body destructuring with its default, text validation, provider call
propagating the provider status on failure, then a try block that
builds the record (caller metadata spread last) and upserts it. -/
def handleEmbedVZ (auth : Option String) (bodyJson : Option JVal)
    (provider : ProviderReq → ProviderResp) (upsertOk : VecRecord → Bool)
    (freshId : String) (now : String) : EmbedOutcome :=
  match auth with
  | none => ⟨.resp (errorResponse "Missing Authorization header" 401), none, none⟩
  | some a =>
    if !(strStartsWith a "Bearer ") then
      ⟨.resp (errorResponse "Missing Authorization header" 401), none, none⟩
    else
      let b := bodyJson.getD (.obj [])
      if isNull b then
        ⟨.thrown "TypeError: cannot destructure null body", none, none⟩
      else
        match jsGet b "text" with
        | some (.str t) =>
          if strEmpty t then
            ⟨.resp (errorResponse "Missing or invalid text field" 400), none, none⟩
          else
            let metaV := (jsGet b "metadata").getD (.obj [])
            let req : ProviderReq := ⟨a, t, "text-embedding-3-small"⟩
            let pr := provider req
            if !pr.ok then
              ⟨.resp (errorResponse "Failed to generate embedding" pr.status), some req, none⟩
            else if isNull pr.body then
              ⟨.thrown "TypeError: cannot destructure null provider body", some req, none⟩
            else
              match jsGet pr.body "data" with
              | none =>
                  ⟨.resp (errorResponse "Failed to store embedding" 500), some req, none⟩
              | some d =>
                match jsIndex d 0 with
                | none =>
                    ⟨.resp (errorResponse "Failed to store embedding" 500), some req, none⟩
                | some d0 =>
                  if isNull d0 then
                    ⟨.resp (errorResponse "Failed to store embedding" 500), some req, none⟩
                  else
                    let rec0 : VecRecord :=
                      ⟨freshId, jsGet d0 "embedding",
                        ("text", .str t) :: ("timestamp", .str now) :: spreadFields metaV⟩
                    if upsertOk rec0 then
                      ⟨.resp ⟨200, .obj [("id", .str freshId)]⟩, some req, some rec0⟩
                    else
                      ⟨.resp (errorResponse "Failed to store embedding" 500), some req, some rec0⟩
        | _ => ⟨.resp (errorResponse "Missing or invalid text field" 400), none, none⟩

/-- Outcome of the Vectorize get handler. -/
structure GetOutcome where
  result : HResult
  getCall : Option (List String)

/-- The Vectorize get handler: id guard, then a try block around the
getByIds call; 404 on an empty result, otherwise the first record
projected to id, text, embedding and timestamp (no metadata field). -/
def handleGetVZ (id : Option String)
    (getByIds : List String → Except Unit (List VecRecord)) : GetOutcome :=
  match id with
  | none => ⟨.resp (errorResponse "Missing ID parameter" 400), none⟩
  | some i =>
    if strEmpty i then ⟨.resp (errorResponse "Missing ID parameter" 400), none⟩
    else
      match getByIds [i] with
      | .error _ => ⟨.resp (errorResponse "Failed to retrieve embedding" 500), some [i]⟩
      | .ok results =>
        match results with
        | [] => ⟨.resp (errorResponse "Embedding not found" 404), some [i]⟩
        | v :: _ =>
          ⟨.resp ⟨200, mkObj [("id", some (.str v.id)),
              ("text", jsLookup v.metadata "text"),
              ("embedding", v.values),
              ("timestamp", jsLookup v.metadata "timestamp")]⟩, some [i]⟩

/-- The options object the search handler passes to the store query. -/
structure SearchOptions where
  topK : JVal
  filter : Option JVal
  returnMetadata : Bool

/-- A match as returned by the store query; its metadata can be absent,
which the handler tolerates through optional chaining. -/
structure VMatch where
  id : String
  score : JVal
  metadata : Option (List (String × JVal))

/-- Outcome of the search handler. -/
structure SearchOutcome where
  result : HResult
  providerReq : Option ProviderReq
  queryCall : Option (JVal × SearchOptions)

/-- The projection the search handler applies to each store match:
id, score, and the text drawn from the match metadata by optional
chaining (the field disappears when absent). -/
def matchEntry (m : VMatch) : JVal :=
  mkObj [("id", some (.str m.id)), ("score", some m.score),
         ("text", m.metadata.bind (fun md => jsLookup md "text"))]

/-- The Vectorize search handler: auth guard, body destructuring with
the topK default, query validation, provider call whose failure
propagates the provider status and raw body text, then a try block
holding the defensive checks on the provider body, the construction of
the query options (filter attached only when truthy), the store query,
and the response built from the matches in store order. -/
def handleSearchVZ (auth : Option String) (bodyJson : Option JVal)
    (provider : ProviderReq → ProviderResp)
    (queryStore : JVal → SearchOptions → Except String (List VMatch)) : SearchOutcome :=
  match auth with
  | none => ⟨.resp (errorResponse "Missing Authorization header" 401), none, none⟩
  | some a =>
    if !(strStartsWith a "Bearer ") then
      ⟨.resp (errorResponse "Missing Authorization header" 401), none, none⟩
    else
      let b := bodyJson.getD (.obj [])
      if isNull b then
        ⟨.thrown "TypeError: cannot destructure null body", none, none⟩
      else
        match jsGet b "query" with
        | some (.str q) =>
          if strEmpty q then
            ⟨.resp (errorResponse "Missing or invalid query field" 400), none, none⟩
          else
            let topKv := (jsGet b "topK").getD (.num 5)
            let filt := jsGet b "filter"
            let req : ProviderReq := ⟨a, q, "text-embedding-3-small"⟩
            let pr := provider req
            if !pr.ok then
              ⟨.resp (errorResponse ("OpenAI API failed: " ++ pr.bodyText) pr.status),
                some req, none⟩
            else if isNull pr.body then
              ⟨.resp (errorResponse "Search failed: Cannot read properties of null" 500),
                some req, none⟩
            else
              let data := jsGet pr.body "data"
              if !(truthyO data) then
                ⟨.resp (errorResponse
                    ("Invalid response from OpenAI: " ++ jsonStringify pr.body) 500),
                  some req, none⟩
              else
                let d := data.getD .null
                let d0 := jsIndex d 0
                if !(truthyO d0) then
                  ⟨.resp (errorResponse
                      ("Invalid response from OpenAI: " ++ jsonStringify pr.body) 500),
                    some req, none⟩
                else
                  let emb? := jsGet (d0.getD .null) "embedding"
                  if !(truthyO emb?) then
                    ⟨.resp (errorResponse
                        ("Invalid response from OpenAI: " ++ jsonStringify pr.body) 500),
                      some req, none⟩
                  else
                    match emb?.getD .null with
                    | .arr xs =>
                      if xs.isEmpty then
                        ⟨.resp (errorResponse
                            ("Invalid embedding data received: 0 dimensions") 500),
                          some req, none⟩
                      else
                        let opts : SearchOptions :=
                          ⟨topKv, if truthyO filt then filt else none, true⟩
                        match queryStore (.arr xs) opts with
                        | .error e =>
                          ⟨.resp (errorResponse ("Search failed: " ++ e) 500),
                            some req, some (.arr xs, opts)⟩
                        | .ok ms =>
                          ⟨.resp ⟨200, .obj [("query", .str q),
                              ("results", .arr (ms.map matchEntry))]⟩,
                            some req, some (.arr xs, opts)⟩
                    | v =>
                      ⟨.resp (errorResponse
                          ("Invalid embedding data received: " ++
                            toString (jsLenOr0 v) ++ " dimensions") 500),
                        some req, none⟩
        | _ => ⟨.resp (errorResponse "Missing or invalid query field" 400), none, none⟩

/-- Outcome of the delete handler. -/
structure DeleteOutcome where
  result : HResult
  deleteCall : Option (List String)

/-- The Vectorize delete handler: id guard, then a try block around
deleteByIds; the store result carries no existence information, so
success always yields the same message object. -/
def handleDeleteVZ (id : Option String)
    (del : List String → Except Unit Unit) : DeleteOutcome :=
  match id with
  | none => ⟨.resp (errorResponse "Missing ID parameter" 400), none⟩
  | some i =>
    if strEmpty i then ⟨.resp (errorResponse "Missing ID parameter" 400), none⟩
    else
      match del [i] with
      | .ok _ =>
        ⟨.resp ⟨200, .obj [("message", .str "Embedding deleted successfully"),
            ("id", .str i)]⟩, some [i]⟩
      | .error _ => ⟨.resp (errorResponse "Failed to delete embedding" 500), some [i]⟩

/-- A KV put call: the key and the payload whose serialisation is
stored. -/
structure PutCall where
  key : String
  value : JVal

/-- Outcome of the KV create handler. -/
structure EmbedKVOutcome where
  result : HResult
  providerReq : Option ProviderReq
  putCall : Option PutCall

/-- The KV create handler. Unlike the Vectorize variant it rebuilds the
bearer header from the stripped key, answers every provider failure
with a fixed 500, and wraps nothing in a try block: a malformed
provider body or a failing put escapes as an exception. The stored
payload drops an undefined embedding field at serialisation. -/
def handleEmbedKV (auth : Option String) (bodyJson : Option JVal)
    (provider : ProviderReq → ProviderResp) (putOk : String → JVal → Bool)
    (freshId : String) (now : String) : EmbedKVOutcome :=
  match auth with
  | none => ⟨.resp (errorResponse "Missing Authorization header" 401), none, none⟩
  | some a =>
    if !(strStartsWith a "Bearer ") then
      ⟨.resp (errorResponse "Missing Authorization header" 401), none, none⟩
    else
      let b := bodyJson.getD (.obj [])
      if isNull b then
        ⟨.thrown "TypeError: cannot destructure null body", none, none⟩
      else
        match jsGet b "text" with
        | some (.str t) =>
          if strEmpty t then
            ⟨.resp (errorResponse "Missing or invalid text field" 400), none, none⟩
          else
            let req : ProviderReq := ⟨"Bearer " ++ strDrop a 7, t, "text-embedding-3-small"⟩
            let pr := provider req
            if !pr.ok then
              ⟨.resp (errorResponse "Failed to generate embedding" 500), some req, none⟩
            else if isNull pr.body then
              ⟨.thrown "TypeError: cannot destructure null provider body", some req, none⟩
            else
              match jsGet pr.body "data" with
              | none => ⟨.thrown "TypeError: cannot index undefined data", some req, none⟩
              | some d =>
                match jsIndex d 0 with
                | none => ⟨.thrown "TypeError: cannot read embedding of undefined", some req, none⟩
                | some d0 =>
                  if isNull d0 then
                    ⟨.thrown "TypeError: cannot read embedding of null", some req, none⟩
                  else
                    let payload := mkObj [("text", some (.str t)),
                      ("embedding", jsGet d0 "embedding"), ("timestamp", some (.str now))]
                    if putOk freshId payload then
                      ⟨.resp ⟨200, .obj [("id", .str freshId)]⟩, some req, some ⟨freshId, payload⟩⟩
                    else
                      ⟨.thrown "KV put failed", some req, some ⟨freshId, payload⟩⟩
        | _ => ⟨.resp (errorResponse "Missing or invalid text field" 400), none, none⟩

/-- What a KV get can yield: a rejected call, a missing key, or a
stored string whose JSON parse either fails or yields a value. -/
inductive KVGetRes where
  | callFailed : KVGetRes
  | missing : KVGetRes
  | value : Except Unit JVal → KVGetRes

/-- Outcome of the KV get handler. -/
structure GetKVOutcome where
  result : HResult
  getCall : Option String

/-- The KV get handler: id guard, then an unguarded get, an unguarded
JSON parse of the stored string, and an unguarded projection, so a
failing call, an unparseable payload or a null payload all escape as
exceptions. -/
def handleGetKV (id : Option String) (g : String → KVGetRes) : GetKVOutcome :=
  match id with
  | none => ⟨.resp (errorResponse "Missing ID parameter" 400), none⟩
  | some i =>
    if strEmpty i then ⟨.resp (errorResponse "Missing ID parameter" 400), none⟩
    else
      match g i with
      | .callFailed => ⟨.thrown "KV get failed", some i⟩
      | .missing => ⟨.resp (errorResponse "Embedding not found" 404), some i⟩
      | .value (.error _) => ⟨.thrown "SyntaxError: unexpected token in JSON", some i⟩
      | .value (.ok v) =>
        if isNull v then ⟨.thrown "TypeError: cannot read text of null", some i⟩
        else
          ⟨.resp ⟨200, mkObj [("id", some (.str i)), ("text", jsGet v "text"),
              ("embedding", jsGet v "embedding"),
              ("timestamp", jsGet v "timestamp")]⟩, some i⟩

/-- Vectorize upsert semantics on an explicit store state: replace any
record carrying the same id. -/
def storeUpsert (st : List VecRecord) (r : VecRecord) : List VecRecord :=
  (st.filter (fun x => x.id != r.id)) ++ [r]

/-- Vectorize getByIds semantics on an explicit store state. -/
def storeGetByIds (st : List VecRecord) (ids : List String) : List VecRecord :=
  st.filter (fun r => ids.contains r.id)

/-- Vectorize deleteByIds semantics on an explicit store state: always
succeeds, whether or not the ids are present. -/
def storeDelete (st : List VecRecord) (ids : List String) : List VecRecord :=
  st.filter (fun r => !(ids.contains r.id))

/-- The provider body shape of the test suite mock: one datum holding a
small embedding vector. -/
def mockProviderBody : JVal :=
  .obj [("data", .arr [.obj [("embedding", .arr [.num 1, .num 2, .num 3])]])]

/-- A provider that always succeeds with the mock body. -/
def mockProvider : ProviderReq → ProviderResp := fun _ =>
  ⟨true, 200, mockProviderBody, "ok"⟩

/-- A provider that always fails with the given HTTP status. -/
def failProvider (status : Nat) : ProviderReq → ProviderResp := fun _ =>
  ⟨false, status, .null, "provider error"⟩

/-- A request body carrying a text and one caller metadata field. -/
def mockBody : JVal :=
  .obj [("text", .str "hello"), ("metadata", .obj [("category", .str "tech")])]

/-- The record the create handler upserts for `mockBody` under the mock
provider, generated id id1 and timestamp ts1. -/
def mockRecord : VecRecord :=
  ⟨"id1", some (.arr [.num 1, .num 2, .num 3]),
    [("text", .str "hello"), ("timestamp", .str "ts1"), ("category", .str "tech")]⟩

/-- A store query behaviour returning two ranked matches, the second
one without metadata. -/
def mockMatches : List VMatch :=
  [⟨"m1", .num 9, some [("text", .str "t1")]⟩, ⟨"m2", .num 7, none⟩]

/-- The validation predicate both create and search apply to their
required field: rejected when absent, falsy, or not a string — that
is, unless it is a non-empty string. -/
def invalidField : Option JVal → Bool
  | some (.str s) => strEmpty s
  | some _ => true
  | none => true

end EmbedApi

namespace EmbedApi

/-- A value some property of which was read is an object, hence truthy. -/
theorem truthy_of_jsGet_some {v w : JVal} {k : String} (h : jsGet v k = some w) :
    truthy v = true := by
  cases v with
  | obj fs => simp [truthy]
  | null => simp [jsGet] at h
  | bool b => simp [jsGet] at h
  | num x => simp [jsGet] at h
  | str s => simp [jsGet] at h
  | arr xs => simp [jsGet] at h

/-- A value some index of which was read is an array, string or object,
hence truthy. -/
theorem truthy_of_jsIndex_some {v w : JVal} {i : Nat} (h : jsIndex v i = some w) :
    truthy v = true := by
  cases v with
  | arr xs => simp [truthy]
  | obj fs => simp [truthy]
  | str s =>
    simp only [jsIndex] at h
    by_cases hi : i < s.length
    · have hl : s.length ≠ 0 := Nat.pos_iff_ne_zero.mp (Nat.lt_of_le_of_lt (Nat.zero_le i) hi)
      simp [truthy, strEmpty, hl]
    · simp [hi] at h
  | null => simp [jsIndex] at h
  | bool b => simp [jsIndex] at h
  | num x => simp [jsIndex] at h

/-- Looking a key up past a prepended field finds the later binding:
the last binding of a key wins. -/
theorem jsLookup_cons_of_some {rest : List (String × JVal)} {key : String} {v : JVal}
    (kv : String × JVal) (h : jsLookup rest key = some v) :
    jsLookup (kv :: rest) key = some v := by
  simp [jsLookup, h]

/-- C6: a create or search request whose Authorization header is
missing or does not carry a Bearer credential is answered 401 with the
fixed error body, and no provider or store call is made, in all three
handlers that take the header. -/
theorem c6_missing_auth_rejected (auth : Option String) (h : badAuth auth = true)
    (bodyJson : Option JVal) (provider : ProviderReq → ProviderResp)
    (upsertOk : VecRecord → Bool) (putOk : String → JVal → Bool)
    (queryStore : JVal → SearchOptions → Except String (List VMatch))
    (freshId now : String) :
    handleEmbedVZ auth bodyJson provider upsertOk freshId now
      = ⟨.resp (errorResponse "Missing Authorization header" 401), none, none⟩ ∧
    handleSearchVZ auth bodyJson provider queryStore
      = ⟨.resp (errorResponse "Missing Authorization header" 401), none, none⟩ ∧
    handleEmbedKV auth bodyJson provider putOk freshId now
      = ⟨.resp (errorResponse "Missing Authorization header" 401), none, none⟩ := by
  cases auth with
  | none => exact ⟨rfl, rfl, rfl⟩
  | some a =>
    simp only [badAuth, Bool.not_eq_true', Bool.not_eq_eq_eq_not, Bool.not_true] at h
    refine ⟨?_, ?_, ?_⟩
    · simp [handleEmbedVZ, h]
    · simp [handleSearchVZ, h]
    · simp [handleEmbedKV, h]

/-- C6 witness: a concrete request with a non-Bearer header. -/
theorem c6_missing_auth_rejected_witness :
    handleEmbedVZ (some "Basic foo") (some mockBody) mockProvider (fun _ => true) "id1" "ts1"
      = ⟨.resp (errorResponse "Missing Authorization header" 401), none, none⟩ ∧
    handleSearchVZ (some "Basic foo") (some mockBody) mockProvider
        (fun _ _ => Except.ok mockMatches)
      = ⟨.resp (errorResponse "Missing Authorization header" 401), none, none⟩ ∧
    handleEmbedKV (some "Basic foo") (some mockBody) mockProvider (fun _ _ => true) "id1" "ts1"
      = ⟨.resp (errorResponse "Missing Authorization header" 401), none, none⟩ :=
  c6_missing_auth_rejected (some "Basic foo") (by decide) (some mockBody) mockProvider
    (fun _ => true) (fun _ _ => true) (fun _ _ => Except.ok mockMatches) "id1" "ts1"

/-- C9: the delete handler on a non-empty id answers 200 with the
message object whenever the store call succeeds — the store result
carries no existence information, so the answer does not depend on
whether the id existed — and a failing store call yields the 500
storage error. -/
theorem c9_delete_success_and_failure (i : String) (hi : strEmpty i = false)
    (del : List String → Except Unit Unit) :
    (∀ u : Unit, del [i] = .ok u →
      handleDeleteVZ (some i) del
        = ⟨.resp ⟨200, .obj [("message", .str "Embedding deleted successfully"),
            ("id", .str i)]⟩, some [i]⟩) ∧
    (∀ e : Unit, del [i] = .error e →
      handleDeleteVZ (some i) del
        = ⟨.resp (errorResponse "Failed to delete embedding" 500), some [i]⟩) := by
  constructor
  · intro u hdel
    simp [handleDeleteVZ, hi, hdel]
  · intro e hdel
    simp [handleDeleteVZ, hi, hdel]

/-- C9 witness: deleting a concrete id against a store that accepts
the call. -/
theorem c9_delete_success_and_failure_witness :
    handleDeleteVZ (some "abc") (fun _ => Except.ok ())
      = ⟨.resp ⟨200, .obj [("message", .str "Embedding deleted successfully"),
          ("id", .str "abc")]⟩, some ["abc"]⟩ :=
  (c9_delete_success_and_failure "abc" (by decide) (fun _ => Except.ok ())).1 () rfl

/-- C10: in the Vectorize create handler the caller metadata is spread
after the system fields of the stored record, so a caller text or
timestamp key overrides the request text and the generated timestamp
under last-binding-wins lookup. -/
theorem c10_caller_metadata_overrides
    (a : String) (hsw : strStartsWith a "Bearer " = true)
    (bodyJson : Option JVal) (b : JVal) (hb : bodyJson.getD (.obj []) = b)
    (hbn : isNull b = false)
    (t : String) (ht : jsGet b "text" = some (.str t)) (hte : strEmpty t = false)
    (mv : JVal) (hmv : (jsGet b "metadata").getD (.obj []) = mv)
    (provider : ProviderReq → ProviderResp) (pr : ProviderResp)
    (hp : provider ⟨a, t, "text-embedding-3-small"⟩ = pr) (hok : pr.ok = true)
    (hnn : isNull pr.body = false)
    (d : JVal) (hd : jsGet pr.body "data" = some d)
    (d0 : JVal) (hd0 : jsIndex d 0 = some d0) (hdn : isNull d0 = false)
    (upsertOk : VecRecord → Bool) (freshId now : String)
    (v : JVal) (hv : jsLookup (spreadFields mv) "text" = some v)
    (w : JVal) (hw : jsLookup (spreadFields mv) "timestamp" = some w) :
    (handleEmbedVZ (some a) bodyJson provider upsertOk freshId now).upsertCall
      = some ⟨freshId, jsGet d0 "embedding",
          ("text", .str t) :: ("timestamp", .str now) :: spreadFields mv⟩ ∧
    jsLookup (("text", JVal.str t) :: ("timestamp", .str now) :: spreadFields mv) "text"
      = some v ∧
    jsLookup (("text", JVal.str t) :: ("timestamp", .str now) :: spreadFields mv) "timestamp"
      = some w := by
  refine ⟨?_, ?_, ?_⟩
  · simp only [handleEmbedVZ, hsw, Bool.not_true, Bool.false_eq_true, if_false, hb, hbn,
      Bool.if_false_left, ht, hte, hmv, hp, hok, hnn, hd, hd0, hdn]
    simp [apply_ite EmbedOutcome.upsertCall]
  · exact jsLookup_cons_of_some _ (jsLookup_cons_of_some _ hv)
  · exact jsLookup_cons_of_some _ (jsLookup_cons_of_some _ hw)

/-- C10 witness: caller metadata carrying both a text and a timestamp
key overrides both system fields in the stored record. -/
theorem c10_caller_metadata_overrides_witness :
    (handleEmbedVZ (some "Bearer k")
        (some (.obj [("text", .str "T"),
          ("metadata", .obj [("text", .str "OTHER"), ("timestamp", .str "TS2")])]))
        mockProvider (fun _ => true) "id1" "ts1").upsertCall
      = some ⟨"id1", jsGet (.obj [("embedding", .arr [.num 1, .num 2, .num 3])]) "embedding",
          ("text", .str "T") :: ("timestamp", .str "ts1") ::
            spreadFields (.obj [("text", .str "OTHER"), ("timestamp", .str "TS2")])⟩ ∧
    jsLookup (("text", JVal.str "T") :: ("timestamp", .str "ts1") ::
        spreadFields (.obj [("text", .str "OTHER"), ("timestamp", .str "TS2")])) "text"
      = some (.str "OTHER") ∧
    jsLookup (("text", JVal.str "T") :: ("timestamp", .str "ts1") ::
        spreadFields (.obj [("text", .str "OTHER"), ("timestamp", .str "TS2")])) "timestamp"
      = some (.str "TS2") :=
  c10_caller_metadata_overrides "Bearer k" (by decide)
    (some (.obj [("text", .str "T"),
      ("metadata", .obj [("text", .str "OTHER"), ("timestamp", .str "TS2")])]))
    (.obj [("text", .str "T"),
      ("metadata", .obj [("text", .str "OTHER"), ("timestamp", .str "TS2")])]) rfl rfl
    "T" rfl (by decide)
    (.obj [("text", .str "OTHER"), ("timestamp", .str "TS2")]) rfl
    mockProvider ⟨true, 200, mockProviderBody, "ok"⟩ rfl rfl rfl
    (.arr [.obj [("embedding", .arr [.num 1, .num 2, .num 3])]]) rfl
    (.obj [("embedding", .arr [.num 1, .num 2, .num 3])]) rfl rfl
    (fun _ => true) "id1" "ts1"
    (.str "OTHER") rfl (.str "TS2") rfl

/-- C3 counterexample: in the KV worker a provider failure with status
429 is answered with status 500, not with the provider status. -/
theorem c3_kv_does_not_propagate_status :
    (handleEmbedKV (some "Bearer k") (some (.obj [("text", .str "hi")]))
        (failProvider 429) (fun _ _ => true) "id1" "ts1").result
      = .resp (errorResponse "Failed to generate embedding" 500) ∧
    (429 : Nat) ≠ 500 := by
  exact ⟨rfl, by decide⟩

/-- C3 amended: on a provider failure the Vectorize create handler
answers with the provider status, while the KV create handler answers
with a fixed 500 whatever the provider status was. -/
theorem c3_provider_failure_statuses
    (a : String) (hsw : strStartsWith a "Bearer " = true)
    (bodyJson : Option JVal) (b : JVal) (hb : bodyJson.getD (.obj []) = b)
    (hbn : isNull b = false)
    (t : String) (ht : jsGet b "text" = some (.str t)) (hte : strEmpty t = false)
    (provider : ProviderReq → ProviderResp)
    (hvz : (provider ⟨a, t, "text-embedding-3-small"⟩).ok = false)
    (hkv : (provider ⟨"Bearer " ++ strDrop a 7, t, "text-embedding-3-small"⟩).ok = false)
    (upsertOk : VecRecord → Bool) (putOk : String → JVal → Bool)
    (freshId now : String) :
    (handleEmbedVZ (some a) bodyJson provider upsertOk freshId now).result
      = .resp (errorResponse "Failed to generate embedding"
          (provider ⟨a, t, "text-embedding-3-small"⟩).status) ∧
    (handleEmbedKV (some a) bodyJson provider putOk freshId now).result
      = .resp (errorResponse "Failed to generate embedding" 500) := by
  constructor
  · simp [handleEmbedVZ, hsw, hb, hbn, ht, hte, hvz]
  · simp [handleEmbedKV, hsw, hb, hbn, ht, hte, hkv]

/-- C3 witness: a provider failing with 403 yields 403 from the
Vectorize worker and 500 from the KV worker. -/
theorem c3_provider_failure_statuses_witness :
    (handleEmbedVZ (some "Bearer k") (some (.obj [("text", .str "hi")]))
        (failProvider 403) (fun _ => true) "id1" "ts1").result
      = .resp (errorResponse "Failed to generate embedding"
          ((failProvider 403) ⟨"Bearer k", "hi", "text-embedding-3-small"⟩).status) ∧
    (handleEmbedKV (some "Bearer k") (some (.obj [("text", .str "hi")]))
        (failProvider 403) (fun _ _ => true) "id1" "ts1").result
      = .resp (errorResponse "Failed to generate embedding" 500) :=
  c3_provider_failure_statuses "Bearer k" (by decide)
    (some (.obj [("text", .str "hi")])) (.obj [("text", .str "hi")]) rfl rfl
    "hi" rfl (by decide) (failProvider 403) rfl rfl
    (fun _ => true) (fun _ _ => true) "id1" "ts1"

/-- C5 counterexample: in the KV worker a rejected store read, an
unparseable stored payload, and a rejected store write all escape the
handler as exceptions instead of a structured JSON error response. -/
theorem c5_kv_exceptions_escape :
    (handleGetKV (some "abc") (fun _ => .callFailed)).result
      = .thrown "KV get failed" ∧
    (handleGetKV (some "abc") (fun _ => .value (.error ()))).result
      = .thrown "SyntaxError: unexpected token in JSON" ∧
    (handleEmbedKV (some "Bearer k") (some (.obj [("text", .str "hi")]))
        mockProvider (fun _ _ => false) "id1" "ts1").result
      = .thrown "KV put failed" :=
  ⟨rfl, rfl, rfl⟩

/-- C5 amended: in the Vectorize worker a failing store read, delete,
or write is caught and converted to a structured JSON 500 error, but
in the KV worker store failures and stored-payload parse failures
escape as raw exceptions. -/
theorem c5_vz_store_failures_caught
    (i : String) (hi : strEmpty i = false)
    (g : List String → Except Unit (List VecRecord)) (hg : g [i] = .error ())
    (del : List String → Except Unit Unit) (hdel : del [i] = .error ())
    (a : String) (hsw : strStartsWith a "Bearer " = true)
    (bodyJson : Option JVal) (b : JVal) (hb : bodyJson.getD (.obj []) = b)
    (hbn : isNull b = false)
    (t : String) (ht : jsGet b "text" = some (.str t)) (hte : strEmpty t = false)
    (provider : ProviderReq → ProviderResp) (pr : ProviderResp)
    (hp : provider ⟨a, t, "text-embedding-3-small"⟩ = pr) (hok : pr.ok = true)
    (hnn : isNull pr.body = false)
    (d : JVal) (hd : jsGet pr.body "data" = some d)
    (d0 : JVal) (hd0 : jsIndex d 0 = some d0) (hdn : isNull d0 = false)
    (freshId now : String) :
    (handleGetVZ (some i) g).result
      = .resp (errorResponse "Failed to retrieve embedding" 500) ∧
    (handleDeleteVZ (some i) del).result
      = .resp (errorResponse "Failed to delete embedding" 500) ∧
    (handleEmbedVZ (some a) bodyJson provider (fun _ => false) freshId now).result
      = .resp (errorResponse "Failed to store embedding" 500) := by
  refine ⟨?_, ?_, ?_⟩
  · simp [handleGetVZ, hi, hg]
  · simp [handleDeleteVZ, hi, hdel]
  · simp [handleEmbedVZ, hsw, hb, hbn, ht, hte, hp, hok, hnn, hd, hd0, hdn]

/-- C5 witness: concrete failing store calls against the Vectorize
handlers are answered with the three structured 500 errors. -/
theorem c5_vz_store_failures_caught_witness :
    (handleGetVZ (some "abc") (fun _ => Except.error ())).result
      = .resp (errorResponse "Failed to retrieve embedding" 500) ∧
    (handleDeleteVZ (some "abc") (fun _ => Except.error ())).result
      = .resp (errorResponse "Failed to delete embedding" 500) ∧
    (handleEmbedVZ (some "Bearer k") (some (.obj [("text", .str "hi")]))
        mockProvider (fun _ => false) "id1" "ts1").result
      = .resp (errorResponse "Failed to store embedding" 500) :=
  c5_vz_store_failures_caught "abc" (by decide)
    (fun _ => Except.error ()) rfl (fun _ => Except.error ()) rfl
    "Bearer k" (by decide)
    (some (.obj [("text", .str "hi")])) (.obj [("text", .str "hi")]) rfl rfl
    "hi" rfl (by decide)
    mockProvider ⟨true, 200, mockProviderBody, "ok"⟩ rfl rfl rfl
    (.arr [.obj [("embedding", .arr [.num 1, .num 2, .num 3])]]) rfl
    (.obj [("embedding", .arr [.num 1, .num 2, .num 3])]) rfl rfl
    "id1" "ts1"

/-- C7 counterexample: a body that parses to JSON null makes the
destructuring throw in both create handlers, instead of the 400
response the claim requires for a request whose text field is absent. -/
theorem c7_null_body_throws :
    (handleEmbedVZ (some "Bearer k") (some .null) mockProvider
        (fun _ => true) "id1" "ts1").result
      = .thrown "TypeError: cannot destructure null body" ∧
    (handleSearchVZ (some "Bearer k") (some .null) mockProvider
        (fun _ _ => Except.ok mockMatches)).result
      = .thrown "TypeError: cannot destructure null body" ∧
    (HResult.thrown "TypeError: cannot destructure null body"
      ≠ .resp (errorResponse "Missing or invalid text field" 400)) :=
  ⟨rfl, rfl, by simp⟩

/-- C7 amended: when the body parses to a non-null value whose
text/query field is absent, non-string or empty, create and search
answer 400 with the field-specific message and make no outbound call;
a body that fails to parse is handled exactly like an empty object,
hence like a missing field. A body parsing to JSON null instead makes
the destructuring throw. -/
theorem c7_invalid_field_validation
    (a : String) (hsw : strStartsWith a "Bearer " = true)
    (bodyJson : Option JVal) (b : JVal) (hb : bodyJson.getD (.obj []) = b)
    (hbn : isNull b = false)
    (provider : ProviderReq → ProviderResp) (upsertOk : VecRecord → Bool)
    (putOk : String → JVal → Bool)
    (queryStore : JVal → SearchOptions → Except String (List VMatch))
    (freshId now : String) :
    (invalidField (jsGet b "text") = true →
      handleEmbedVZ (some a) bodyJson provider upsertOk freshId now
        = ⟨.resp (errorResponse "Missing or invalid text field" 400), none, none⟩ ∧
      handleEmbedKV (some a) bodyJson provider putOk freshId now
        = ⟨.resp (errorResponse "Missing or invalid text field" 400), none, none⟩) ∧
    (invalidField (jsGet b "query") = true →
      handleSearchVZ (some a) bodyJson provider queryStore
        = ⟨.resp (errorResponse "Missing or invalid query field" 400), none, none⟩) ∧
    handleEmbedVZ (some a) none provider upsertOk freshId now
      = handleEmbedVZ (some a) (some (.obj [])) provider upsertOk freshId now := by
  refine ⟨fun htext => ⟨?_, ?_⟩, fun hquery => ?_, rfl⟩
  · rcases hjt : jsGet b "text" with _ | v
    · simp [handleEmbedVZ, hsw, hb, hbn, hjt]
    · cases v with
      | str s =>
        have hs : strEmpty s = true := by simpa [invalidField, hjt] using htext
        simp [handleEmbedVZ, hsw, hb, hbn, hjt, hs]
      | null => simp [handleEmbedVZ, hsw, hb, hbn, hjt]
      | bool x => simp [handleEmbedVZ, hsw, hb, hbn, hjt]
      | num x => simp [handleEmbedVZ, hsw, hb, hbn, hjt]
      | arr xs => simp [handleEmbedVZ, hsw, hb, hbn, hjt]
      | obj fs => simp [handleEmbedVZ, hsw, hb, hbn, hjt]
  · rcases hjt : jsGet b "text" with _ | v
    · simp [handleEmbedKV, hsw, hb, hbn, hjt]
    · cases v with
      | str s =>
        have hs : strEmpty s = true := by simpa [invalidField, hjt] using htext
        simp [handleEmbedKV, hsw, hb, hbn, hjt, hs]
      | null => simp [handleEmbedKV, hsw, hb, hbn, hjt]
      | bool x => simp [handleEmbedKV, hsw, hb, hbn, hjt]
      | num x => simp [handleEmbedKV, hsw, hb, hbn, hjt]
      | arr xs => simp [handleEmbedKV, hsw, hb, hbn, hjt]
      | obj fs => simp [handleEmbedKV, hsw, hb, hbn, hjt]
  · rcases hjq : jsGet b "query" with _ | v
    · simp [handleSearchVZ, hsw, hb, hbn, hjq]
    · cases v with
      | str s =>
        have hs : strEmpty s = true := by simpa [invalidField, hjq] using hquery
        simp [handleSearchVZ, hsw, hb, hbn, hjq, hs]
      | null => simp [handleSearchVZ, hsw, hb, hbn, hjq]
      | bool x => simp [handleSearchVZ, hsw, hb, hbn, hjq]
      | num x => simp [handleSearchVZ, hsw, hb, hbn, hjq]
      | arr xs => simp [handleSearchVZ, hsw, hb, hbn, hjq]
      | obj fs => simp [handleSearchVZ, hsw, hb, hbn, hjq]

/-- C7 witness: a create body with numeric text but a valid query
string is rejected 400 by both create handlers, a search body with an
empty query but valid text is rejected 400 by search, and a parse
failure behaves like an empty object body. -/
theorem c7_invalid_field_validation_witness :
    handleEmbedVZ (some "Bearer k") (some (.obj [("text", .num 5), ("query", .str "ok")]))
        mockProvider (fun _ => true) "id1" "ts1"
      = ⟨.resp (errorResponse "Missing or invalid text field" 400), none, none⟩ ∧
    handleEmbedKV (some "Bearer k") (some (.obj [("text", .num 5), ("query", .str "ok")]))
        mockProvider (fun _ _ => true) "id1" "ts1"
      = ⟨.resp (errorResponse "Missing or invalid text field" 400), none, none⟩ ∧
    handleSearchVZ (some "Bearer k") (some (.obj [("query", .str ""), ("text", .str "hi")]))
        mockProvider (fun _ _ => Except.ok mockMatches)
      = ⟨.resp (errorResponse "Missing or invalid query field" 400), none, none⟩ ∧
    handleEmbedVZ (some "Bearer k") none mockProvider (fun _ => true) "id1" "ts1"
      = handleEmbedVZ (some "Bearer k") (some (.obj [])) mockProvider (fun _ => true) "id1" "ts1" := by
  refine ⟨?_, ?_, ?_, ?_⟩
  · exact ((c7_invalid_field_validation "Bearer k" (by decide)
      (some (.obj [("text", .num 5), ("query", .str "ok")]))
      (.obj [("text", .num 5), ("query", .str "ok")]) rfl rfl
      mockProvider (fun _ => true) (fun _ _ => true) (fun _ _ => Except.ok mockMatches)
      "id1" "ts1").1 rfl).1
  · exact ((c7_invalid_field_validation "Bearer k" (by decide)
      (some (.obj [("text", .num 5), ("query", .str "ok")]))
      (.obj [("text", .num 5), ("query", .str "ok")]) rfl rfl
      mockProvider (fun _ => true) (fun _ _ => true) (fun _ _ => Except.ok mockMatches)
      "id1" "ts1").1 rfl).2
  · exact (c7_invalid_field_validation "Bearer k" (by decide)
      (some (.obj [("query", .str ""), ("text", .str "hi")]))
      (.obj [("query", .str ""), ("text", .str "hi")]) rfl rfl
      mockProvider (fun _ => true) (fun _ _ => true) (fun _ _ => Except.ok mockMatches)
      "id1" "ts1").2.1 (by decide)
  · exact (c7_invalid_field_validation "Bearer k" (by decide)
      (some (.obj [])) (.obj []) rfl rfl
      mockProvider (fun _ => true) (fun _ _ => true) (fun _ _ => Except.ok mockMatches)
      "id1" "ts1").2.2

/-- C8 counterexample: a search body that supplies a falsy filter is a
valid search request, yet the store query is issued without the
filter: supplied is not the condition the code tests, truthiness is. -/
theorem c8_falsy_filter_dropped :
    jsGet (.obj [("query", .str "q"), ("filter", .bool false)]) "filter"
      = some (.bool false) ∧
    (handleSearchVZ (some "Bearer k")
        (some (.obj [("query", .str "q"), ("filter", .bool false)]))
        mockProvider (fun _ _ => Except.ok mockMatches)).queryCall
      = some (.arr [.num 1, .num 2, .num 3], ⟨.num 5, none, true⟩) :=
  ⟨rfl, rfl⟩

/-- C8 amended: a valid search request issues exactly one store query
with the provider vector and the options topK (defaulting to 5),
returnMetadata true, and the filter attached exactly when the supplied
filter value is truthy; the response lists the store matches projected
in store order, none dropped, added or reordered. -/
theorem c8_query_options_and_order
    (a : String) (hsw : strStartsWith a "Bearer " = true)
    (bodyJson : Option JVal) (b : JVal) (hb : bodyJson.getD (.obj []) = b)
    (hbn : isNull b = false)
    (q : String) (hq : jsGet b "query" = some (.str q)) (hqe : strEmpty q = false)
    (topv : JVal) (htk : (jsGet b "topK").getD (.num 5) = topv)
    (filt : Option JVal) (hf : jsGet b "filter" = filt)
    (provider : ProviderReq → ProviderResp) (pr : ProviderResp)
    (hp : provider ⟨a, q, "text-embedding-3-small"⟩ = pr) (hok : pr.ok = true)
    (hnn : isNull pr.body = false)
    (d : JVal) (hd : jsGet pr.body "data" = some d)
    (d0 : JVal) (hd0 : jsIndex d 0 = some d0)
    (xs : List JVal) (hemb : jsGet d0 "embedding" = some (.arr xs))
    (hxs : xs.isEmpty = false)
    (queryStore : JVal → SearchOptions → Except String (List VMatch))
    (ms : List VMatch)
    (hms : queryStore (.arr xs)
        ⟨topv, if truthyO filt then filt else none, true⟩ = .ok ms) :
    (handleSearchVZ (some a) bodyJson provider queryStore).queryCall
      = some (.arr xs, ⟨topv, if truthyO filt then filt else none, true⟩) ∧
    (handleSearchVZ (some a) bodyJson provider queryStore).result
      = .resp ⟨200, .obj [("query", .str q), ("results", .arr (ms.map matchEntry))]⟩ := by
  have h1 : truthyO (some d) = true := by
    simp [truthyO, truthy_of_jsIndex_some hd0]
  have h2 : truthyO (some d0) = true := by
    simp [truthyO, truthy_of_jsGet_some hemb]
  have h3 : truthyO (some (JVal.arr xs)) = true := by
    simp [truthyO, truthy]
  constructor <;>
    simp [handleSearchVZ, hsw, hb, hbn, hq, hqe, htk, hf, hp, hok, hnn, hd, hd0, hemb,
      h1, h2, h3, hxs, hms]

/-- C8 witness: a search with topK 3 and a truthy filter issues the
store query with that topK and filter and returns the two mock matches
in order. -/
theorem c8_query_options_and_order_witness :
    (handleSearchVZ (some "Bearer k")
        (some (.obj [("query", .str "q"), ("topK", .num 3),
          ("filter", .obj [("category", .str "tech")])]))
        mockProvider (fun _ _ => Except.ok mockMatches)).queryCall
      = some (.arr [.num 1, .num 2, .num 3],
          ⟨.num 3, some (.obj [("category", .str "tech")]), true⟩) ∧
    (handleSearchVZ (some "Bearer k")
        (some (.obj [("query", .str "q"), ("topK", .num 3),
          ("filter", .obj [("category", .str "tech")])]))
        mockProvider (fun _ _ => Except.ok mockMatches)).result
      = .resp ⟨200, .obj [("query", .str "q"),
          ("results", .arr (mockMatches.map matchEntry))]⟩ :=
  c8_query_options_and_order "Bearer k" (by decide)
    (some (.obj [("query", .str "q"), ("topK", .num 3),
      ("filter", .obj [("category", .str "tech")])]))
    (.obj [("query", .str "q"), ("topK", .num 3),
      ("filter", .obj [("category", .str "tech")])]) rfl rfl
    "q" rfl (by decide)
    (.num 3) rfl
    (some (.obj [("category", .str "tech")])) rfl
    mockProvider ⟨true, 200, mockProviderBody, "ok"⟩ rfl rfl rfl
    (.arr [.obj [("embedding", .arr [.num 1, .num 2, .num 3])]]) rfl
    (.obj [("embedding", .arr [.num 1, .num 2, .num 3])]) rfl
    [.num 1, .num 2, .num 3] rfl rfl
    (fun _ _ => Except.ok mockMatches) mockMatches rfl

/-- C1: the claim expects the created metadata back from get-embedding,
but after a successful create with caller metadata the Vectorize get
answers only id, text, embedding and timestamp: its body has no
metadata field at all, although the README documents one. Text and
vector do round-trip unchanged here. -/
theorem c1_roundtrip_returns_no_metadata :
    (handleEmbedVZ (some "Bearer k") (some mockBody) mockProvider
        (fun _ => true) "id1" "ts1").upsertCall
      = some mockRecord ∧
    (handleGetVZ (some "id1")
        (fun ids => Except.ok (storeGetByIds (storeUpsert [] mockRecord) ids))).result
      = .resp ⟨200, .obj [("id", .str "id1"), ("text", .str "hello"),
          ("embedding", .arr [.num 1, .num 2, .num 3]), ("timestamp", .str "ts1")]⟩ ∧
    jsGet (.obj [("id", .str "id1"), ("text", .str "hello"),
        ("embedding", .arr [.num 1, .num 2, .num 3]), ("timestamp", .str "ts1")]) "metadata"
      = none :=
  ⟨rfl, rfl, rfl⟩

/-- C2: a successful search response carries only query and results;
it has no total field, although the claim and the README specify
total as the number of results returned. -/
theorem c2_search_response_has_no_total :
    (handleSearchVZ (some "Bearer k") (some (.obj [("query", .str "q")]))
        mockProvider (fun _ _ => Except.ok mockMatches)).result
      = .resp ⟨200, .obj [("query", .str "q"),
          ("results", .arr [
            .obj [("id", .str "m1"), ("score", .num 9), ("text", .str "t1")],
            .obj [("id", .str "m2"), ("score", .num 7)]])]⟩ ∧
    jsGet (.obj [("query", .str "q"),
        ("results", .arr [
          .obj [("id", .str "m1"), ("score", .num 9), ("text", .str "t1")],
          .obj [("id", .str "m2"), ("score", .num 7)]])]) "total"
      = none :=
  ⟨rfl, rfl⟩

/-- C4: a successful create answers exactly the id object in both
variants; the Vectorize variant echoes neither the merged metadata nor
a message, although the claim and the README say it does. -/
theorem c4_create_returns_only_id :
    (handleEmbedVZ (some "Bearer k") (some mockBody) mockProvider
        (fun _ => true) "id1" "ts1").result
      = .resp ⟨200, .obj [("id", .str "id1")]⟩ ∧
    jsGet (.obj [("id", .str "id1")]) "metadata" = none ∧
    jsGet (.obj [("id", .str "id1")]) "message" = none ∧
    (handleEmbedKV (some "Bearer k") (some (.obj [("text", .str "hello")]))
        mockProvider (fun _ _ => true) "id2" "ts1").result
      = .resp ⟨200, .obj [("id", .str "id2")]⟩ :=
  ⟨rfl, rfl, rfl, rfl⟩

end EmbedApi
